import Mathlib

/-!
Verification of the Fyyur booking-directory application (src/app.py) against its
natural-language specification.  The relational schema, the SQLAlchemy query
helpers and every mutating route handler are shallowly embedded as pure Lean
functions over an explicit database state; exceptions (raised either by the
ORM or by the Python runtime) are modelled by `Option`/outcome values, and a
rolled-back transaction leaves the database state unchanged.
-/

namespace Fyyur

/-! ## Data model (app.py lines 35-130)

Each `db.Model` class becomes a structure; each table of the database becomes
a list of rows inside `DB`.  SQL `NULL` string columns are modelled as the
empty string (no claim depends on distinguishing NULL from `''`).  The
`DateTime` column `start_time` is modelled as an integer timestamp. -/

/-- Row of the `Genre` table: `{id, name}` (app.py lines 37-42). -/
structure Genre where
  id : Nat
  name : String
deriving DecidableEq

/-- Row of the `Details` table (app.py lines 96-114). -/
structure DetailsRow where
  id : Nat
  city : String
  state : String
  address : String
  phone : String
  website : String
  image_link : String
  facebook_link : String
deriving DecidableEq

/-- Row of the `Venue` table (app.py lines 56-73). -/
structure VenueRow where
  id : Nat
  details_id : Nat
  name : String
  seeking_talent : Bool
  seeking_text : String
deriving DecidableEq

/-- Row of the `Artist` table (app.py lines 75-92). -/
structure ArtistRow where
  id : Nat
  details_id : Nat
  name : String
  seeking_venue : Bool
  seeking_text : String
deriving DecidableEq

/-- Row of the `Show` table (app.py lines 118-130). -/
structure ShowRow where
  id : Nat
  artist_id : Nat
  venue_id : Nat
  upcoming : Bool
  start_time : Int
deriving DecidableEq

/-- The whole database: one list of rows per table.  `artist_genres` and
`venue_genres` are the two association tables (app.py lines 45-54); a pair
`(genre_id, entity_id)` is one association row. -/
structure DB where
  genres : List Genre
  details : List DetailsRow
  venues : List VenueRow
  artists : List ArtistRow
  shows : List ShowRow
  artist_genres : List (Nat × Nat)
  venue_genres : List (Nat × Nat)
deriving DecidableEq

/-! ## Query helpers (the SQLAlchemy query API used by the handlers) -/

/-- `Query.filter_by(...).one()`: exactly one matching row, otherwise the call
raises (`NoResultFound` / `MultipleResultsFound`), modelled as `none`. -/
def queryOne {α : Type} (p : α → Bool) (l : List α) : Option α :=
  match l.filter p with
  | [x] => some x
  | _ => none

/-- `Query.filter_by(...).one_or_none()`: `some none` for zero rows,
`some (some x)` for exactly one, and `none` when the call raises
(`MultipleResultsFound`, more than one row). -/
def queryOneOrNone {α : Type} (p : α → Bool) (l : List α) : Option (Option α) :=
  match l.filter p with
  | [] => some none
  | [x] => some (some x)
  | _ => none

/-- Autoincrement primary key generation: one more than the largest id in use. -/
def nextId (ids : List Nat) : Nat :=
  ids.foldr (fun i m => max i m) 0 + 1

/-- The characters Python's `str.strip()` removes: exactly those for which
`str.isspace()` holds (ASCII whitespace including `\x0b`/`\f`, the
separator controls `\x1c`-`\x1f`, NEL, NBSP, and the Unicode space
separators). -/
def pyWhitespace (c : Char) : Bool :=
  (9 ≤ c.toNat && c.toNat ≤ 13) || (28 ≤ c.toNat && c.toNat ≤ 31) ||
  c.toNat == 32 || c.toNat == 0x85 || c.toNat == 0xa0 || c.toNat == 0x1680 ||
  (0x2000 ≤ c.toNat && c.toNat ≤ 0x200a) || c.toNat == 0x2028 ||
  c.toNat == 0x2029 || c.toNat == 0x202f || c.toNat == 0x205f ||
  c.toNat == 0x3000

/-- Python's `str.strip()`: remove leading and trailing whitespace. -/
def strip (s : String) : String :=
  ⟨((s.toList.dropWhile pyWhitespace).reverse.dropWhile pyWhitespace).reverse⟩

/-- The string-to-integer coercion the database applies when a form's id
string is inserted into an integer column: defined exactly on digit strings;
anything else makes the insert raise. -/
def parseNat? (s : String) : Option Nat :=
  if s.toList.all Char.isDigit && !s.toList.isEmpty then
    some (s.toList.foldl (fun n c => n * 10 + (c.toNat - 48)) 0)
  else none

/-! ## `ilike` (case-insensitive SQL LIKE, used by both search handlers)

`likeMatch p s` decides whether the string `s` matches the SQL LIKE pattern
`p`: `%` matches any (possibly empty) sequence of characters, `_` matches
exactly one character, the default escape character `\` makes the following
pattern character literal (so `\%`, `\_`, `\\` match `%`, `_`, `\`), and
every other character matches itself.  A pattern that ends in a lone escape
character is rejected by the engine (the query raises); the handlers' own
patterns always end in `%`, so that case is unreachable here and is modelled
as matching nothing.  `ilike` lowercases both sides first, which is how
ILIKE's case-insensitivity behaves (ASCII letters only, matching
`Char.toLower`). -/

def likeMatch : List Char → List Char → Bool
  | [], s => s.isEmpty
  | c :: ps, s =>
    if c == '%' then s.tails.any (fun s2 => likeMatch ps s2)
    else if c == '\\' then
      match ps with
      | [] => false
      | e :: ps' =>
        match s with
        | [] => false
        | d :: ss => e == d && likeMatch ps' ss
    else
      match s with
      | [] => false
      | d :: ss => if c == '_' then likeMatch ps ss else c == d && likeMatch ps ss

/-- `column.ilike(pattern)` as used at app.py lines 206 and 441. -/
def ilike (pattern s : String) : Bool :=
  likeMatch (pattern.toList.map Char.toLower) (s.toList.map Char.toLower)

/-! ## Search handlers (app.py lines 198-224 and 433-459)

Both handlers strip the submitted `search_term`, filter the table with
`name.ilike('%' + search + '%')`, and render the match count together with
the `(id, name)` projection of every match. -/

/-- The rendered search response: `{"count": ..., "data": [{"id","name"}...]}`. -/
structure SearchResponse where
  count : Nat
  data : List (Nat × String)
deriving DecidableEq

/-- `search_venues` (app.py lines 198-224). -/
def search_venues (db : DB) (search_term : String) : SearchResponse :=
  let search := strip search_term
  let venues := db.venues.filter (fun v => ilike ("%" ++ search ++ "%") v.name)
  { count := venues.length, data := venues.map (fun v => (v.id, v.name)) }

/-- `search_artists` (app.py lines 433-459). -/
def search_artists (db : DB) (search_term : String) : SearchResponse :=
  let search := strip search_term
  let artists := db.artists.filter (fun a => ilike ("%" ++ search ++ "%") a.name)
  { count := artists.length, data := artists.map (fun a => (a.id, a.name)) }

/-! ## Venue listing (app.py lines 157-196)

The handler collects the distinct `(city, state)` pairs of all venues' Details
rows into a Python set (modelled as list deduplication; set iteration order is
unspecified in the source) and then, for each pair, lists the venues located
there.  Each per-venue `Details.query.filter_by(id=...).one()` call can raise;
a raise anywhere aborts the request, modelled by the `Option` result. -/

/-- `Details.query.filter_by(id=venue.details_id).one()` (app.py lines 168/179). -/
def venueDetail (db : DB) (v : VenueRow) : Option DetailsRow :=
  queryOne (fun d => d.id == v.details_id) db.details

/-- The `(city, state)` pair of a venue's Details row.  The `("", "")` branch is
unreachable under the handler's well-formedness guard (the source raises there
instead). -/
def venuePlace (db : DB) (v : VenueRow) : String × String :=
  match venueDetail db v with
  | some d => (d.city, d.state)
  | none => ("", "")

/-- True when every venue's `details_id` lookup succeeds, i.e. when no
`.one()` call of the listing handler raises. -/
def venuesWf (db : DB) : Bool :=
  db.venues.all (fun v => (venueDetail db v).isSome)

/-- One group of the venue listing: a `(city, state)` pair plus the
`(id, name)` projection of the venues located there. -/
structure VenueGroup where
  city : String
  state : String
  venues : List (Nat × String)
deriving DecidableEq

/-- The inner loop of the listing handler (app.py lines 175-194): for one
`(city, state)` pair, the `(id, name)` projection of the venues located
there. -/
def venueGroupOf (db : DB) (place : String × String) : VenueGroup :=
  { city := place.1, state := place.2,
    venues := (db.venues.filter (fun v => venuePlace db v == place)).map
      (fun v => (v.id, v.name)) }

/-- `venues` listing handler (app.py lines 157-196). -/
def venuesHandler (db : DB) : Option (List VenueGroup) :=
  if venuesWf db then
    let statesAndCities := (db.venues.map (venuePlace db)).dedup
    some (statesAndCities.map (venueGroupOf db))
  else none

/-! ## Detail pages (app.py lines 226-323 and 461-553)

The rendered page is a Python dict whose values have heterogeneous types (the
miss branch fills every field with the empty string, while the hit branch uses
ints, bools and lists), so field values are modelled by the sum type `Val`. -/

/-- One entry of a past/upcoming show list on a detail page: the counterpart
entity's image link, id and name, plus `str(show.start_time)`.  On a venue
page the counterpart is the artist, on an artist page the venue. -/
structure ShowEntry where
  image_link : String
  other_id : Nat
  other_name : String
  start_time : String
deriving DecidableEq

/-- A value of a detail-page dict. -/
inductive Val where
  | s (v : String)
  | n (v : Nat)
  | b (v : Bool)
  | strs (v : List String)
  | shows (v : List ShowEntry)
deriving DecidableEq

/-- The venue detail page dict (app.py lines 278-295 / 304-321). -/
structure VenuePage where
  id : Val
  name : Val
  genres : Val
  state : Val
  city : Val
  address : Val
  phone : Val
  website : Val
  facebook_link : Val
  seeking_talent : Val
  seeking_description : Val
  past_shows : Val
  past_shows_count : Val
  upcoming_shows : Val
  upcoming_shows_count : Val
  image_link : Val
deriving DecidableEq

/-- The artist detail page dict (app.py lines 512-528 / 536-552); it has no
`address` field. -/
structure ArtistPage where
  id : Val
  name : Val
  genres : Val
  state : Val
  city : Val
  phone : Val
  website : Val
  facebook_link : Val
  seeking_venue : Val
  seeking_description : Val
  past_shows : Val
  past_shows_count : Val
  upcoming_shows : Val
  upcoming_shows_count : Val
  image_link : Val
deriving DecidableEq

/-- `venue.shows`: the relationship rows, i.e. every Show whose `venue_id`
is the venue's id (app.py line 67). -/
def venueShows (db : DB) (v : VenueRow) : List ShowRow :=
  db.shows.filter (fun s => s.venue_id == v.id)

/-- `artist.shows`: every Show whose `artist_id` is the artist's id
(app.py line 86). -/
def artistShows (db : DB) (a : ArtistRow) : List ShowRow :=
  db.shows.filter (fun s => s.artist_id == a.id)

/-- The two `.one()` lookups of the venue page's show loop (app.py lines
247-248): the show's artist and that artist's Details row. -/
def artistOfShow (db : DB) (s : ShowRow) : Option (ArtistRow × DetailsRow) :=
  match queryOne (fun a => a.id == s.artist_id) db.artists with
  | some a => (queryOne (fun d => d.id == a.details_id) db.details).map (fun d => (a, d))
  | none => none

/-- The two `.one()` lookups of the artist page's show loop (app.py lines
481-482): the show's venue and that venue's Details row. -/
def venueOfShow (db : DB) (s : ShowRow) : Option (VenueRow × DetailsRow) :=
  match queryOne (fun v => v.id == s.venue_id) db.venues with
  | some v => (queryOne (fun d => d.id == v.details_id) db.details).map (fun d => (v, d))
  | none => none

/-- One show entry of the venue page (app.py lines 256-261 / 266-271).  The
fallback branch is unreachable under the handler's guard: the source raises
there, which the handler models as an overall `none`. -/
def venueShowEntry (db : DB) (s : ShowRow) : ShowEntry :=
  match artistOfShow db s with
  | some (a, d) =>
    { image_link := d.image_link, other_id := a.id, other_name := a.name,
      start_time := toString s.start_time }
  | none => { image_link := "", other_id := 0, other_name := "", start_time := "" }

/-- One show entry of the artist page (app.py lines 490-495 / 500-505). -/
def artistShowEntry (db : DB) (s : ShowRow) : ShowEntry :=
  match venueOfShow db s with
  | some (v, d) =>
    { image_link := d.image_link, other_id := v.id, other_name := v.name,
      start_time := toString s.start_time }
  | none => { image_link := "", other_id := 0, other_name := "", start_time := "" }

/-- `venue.genres` flattened to names (app.py lines 274-275): the Genre rows
reachable through the `venue_genres` association table. -/
def venueGenreNames (db : DB) (v : VenueRow) : List String :=
  (db.venue_genres.filter (fun p => p.2 == v.id)).filterMap
    (fun p => (db.genres.find? (fun g => g.id == p.1)).map (fun g => g.name))

/-- `artist.genres` flattened to names (app.py lines 508-509). -/
def artistGenreNames (db : DB) (a : ArtistRow) : List String :=
  (db.artist_genres.filter (fun p => p.2 == a.id)).filterMap
    (fun p => (db.genres.find? (fun g => g.id == p.1)).map (fun g => g.name))

/-- The sentinel page returned by `show_venue` for an id with no matching
venue (app.py lines 299-323): the id field carries the error marker and every
other field is the empty string. -/
def blankVenuePage : VenuePage :=
  { id := Val.s "ID Error: Not Found!", name := Val.s "", genres := Val.s "",
    state := Val.s "", city := Val.s "", address := Val.s "", phone := Val.s "",
    website := Val.s "", facebook_link := Val.s "", seeking_talent := Val.s "",
    seeking_description := Val.s "", past_shows := Val.s "",
    past_shows_count := Val.s "", upcoming_shows := Val.s "",
    upcoming_shows_count := Val.s "", image_link := Val.s "" }

/-- The sentinel page returned by `show_artist` for an id with no matching
artist (app.py lines 531-553). -/
def blankArtistPage : ArtistPage :=
  { id := Val.s "ID Error: Not Found!", name := Val.s "", genres := Val.s "",
    state := Val.s "", city := Val.s "", phone := Val.s "", website := Val.s "",
    facebook_link := Val.s "", seeking_venue := Val.s "",
    seeking_description := Val.s "", past_shows := Val.s "",
    past_shows_count := Val.s "", upcoming_shows := Val.s "",
    upcoming_shows_count := Val.s "", image_link := Val.s "" }

/-- `show_venue` (app.py lines 226-323).  `none` models an uncaught exception
(a `.one()`/`.one_or_none()` raise); the handler has no try/except. -/
def show_venue (db : DB) (venue_id : Nat) : Option VenuePage :=
  match queryOneOrNone (fun v => v.id == venue_id) db.venues with
  | none => none
  | some none => some blankVenuePage
  | some (some venue) =>
    match queryOne (fun d => d.id == venue.details_id) db.details with
    | none => none
    | some detail =>
      if (venueShows db venue).all (fun s => (artistOfShow db s).isSome) then
        let up := (venueShows db venue).filter (fun s => s.upcoming)
        let past := (venueShows db venue).filter (fun s => !s.upcoming)
        some { id := Val.n venue_id, name := Val.s venue.name,
               genres := Val.strs (venueGenreNames db venue),
               state := Val.s detail.state, city := Val.s detail.city,
               address := Val.s detail.address, phone := Val.s detail.phone,
               website := Val.s detail.website,
               facebook_link := Val.s detail.facebook_link,
               seeking_talent := Val.b venue.seeking_talent,
               seeking_description := Val.s venue.seeking_text,
               past_shows := Val.shows (past.map (venueShowEntry db)),
               past_shows_count := Val.n past.length,
               upcoming_shows := Val.shows (up.map (venueShowEntry db)),
               upcoming_shows_count := Val.n up.length,
               image_link := Val.s detail.image_link }
      else none

/-- `show_artist` (app.py lines 461-553). -/
def show_artist (db : DB) (artist_id : Nat) : Option ArtistPage :=
  match queryOneOrNone (fun a => a.id == artist_id) db.artists with
  | none => none
  | some none => some blankArtistPage
  | some (some artist) =>
    match queryOne (fun d => d.id == artist.details_id) db.details with
    | none => none
    | some detail =>
      if (artistShows db artist).all (fun s => (venueOfShow db s).isSome) then
        let up := (artistShows db artist).filter (fun s => s.upcoming)
        let past := (artistShows db artist).filter (fun s => !s.upcoming)
        some { id := Val.n artist_id, name := Val.s artist.name,
               genres := Val.strs (artistGenreNames db artist),
               state := Val.s detail.state, city := Val.s detail.city,
               phone := Val.s detail.phone, website := Val.s detail.website,
               facebook_link := Val.s detail.facebook_link,
               seeking_venue := Val.b artist.seeking_venue,
               seeking_description := Val.s artist.seeking_text,
               past_shows := Val.shows (past.map (artistShowEntry db)),
               past_shows_count := Val.n past.length,
               upcoming_shows := Val.shows (up.map (artistShowEntry db)),
               upcoming_shows_count := Val.n up.length,
               image_link := Val.s detail.image_link }
      else none

/-! ## Mutating handlers

Every mutating handler follows the source's try/commit/except/rollback
pattern: the returned `DB` is the state after the handler's transaction(s)
have committed or rolled back, and the outcome value is the HTTP response
(flash+redirect, redirect, JSON, or a 500 page — an uncaught Python
exception also produces a 500 page, via Flask's error handler). -/

/-- Response of the create handlers: success flash + home page, or error
flash + redirect back to the create form. -/
inductive CreateOutcome where
  | success
  | errorFlash
deriving DecidableEq

/-- Response of the edit handlers: redirect to the detail page, or a 500
(either `abort(500)` or an uncaught exception before the try block). -/
inductive EditOutcome where
  | redirect (entity_id : Nat)
  | serverError
deriving DecidableEq

/-- Response of the delete handler: the JSON body `{"deleted": true}`, or a
500 (either `abort(500)` or an uncaught exception). -/
inductive DeleteOutcome where
  | jsonDeletedTrue
  | serverError
deriving DecidableEq

/-- The genre loop shared by the create/edit handlers: for each submitted
name, `Genre.query.filter_by(name=genre).one()`; the first raising lookup
aborts the whole loop (modelled as `none`). -/
def resolveGenres (table : List Genre) : List String → Option (List Genre)
  | [] => some []
  | n :: ns =>
    match queryOne (fun g => g.name == n) table with
    | none => none
    | some g => (resolveGenres table ns).map (fun gs => g :: gs)

/-- The names bound at module level by the import block of app.py (lines
5-17).  `from forms import *` re-exports the form layer's public names; the
forms module is not part of the repository, so its exports are
modelled from the spec: section 2 describes the form layer as validating and
extracting submitted field values only, so it is modelled as providing the
three form classes plus the `datetime` constructor that app.py line 848 uses,
and no Flask response helpers.  In particular `jsonify` (used at app.py line
406) is bound by nothing. -/
def importedNames : List String :=
  ["json", "dateutil", "babel", "Flask", "render_template", "request",
   "Response", "flash", "redirect", "url_for", "abort", "Moment",
   "SQLAlchemy", "logging", "Formatter", "FileHandler", "Form",
   "VenueForm", "ArtistForm", "ShowForm", "datetime", "Migrate"]

/-- Whether the name `jsonify` is bound when `delete_venue` evaluates it. -/
def jsonifyDefined : Bool := importedNames.contains "jsonify"

/-- The fields the venue create/edit handlers read from `VenueForm`
(new_venue.html references exactly these). -/
structure VenueForm where
  genres : List String
  name : String
  city : String
  state : String
  address : String
  phone : String
  facebook_link : String
deriving DecidableEq

/-- The fields the artist create/edit handlers read from `ArtistForm`. -/
structure ArtistForm where
  genres : List String
  name : String
  city : String
  state : String
  phone : String
  facebook_link : String
deriving DecidableEq

/-- The fields `create_show_submission` reads from `ShowForm`: the two ids
arrive as form strings, the start time as a parsed datetime. -/
structure ShowForm where
  venue_id : String
  artist_id : String
  start_time : Int
deriving DecidableEq

/-- `create_venue_submission` (app.py lines 333-381).

The handler commits the new Details row first (line 353), re-reads it by
`facebook_link` with `.one()` (line 355), resolves each submitted genre name
with `.one()` (line 361), then adds and commits the new Venue.  An exception
after the first commit rolls back only the second transaction, so the Details
row stays committed.  A duplicate submitted genre (two appends of the same
Genre row) would violate the association table's composite primary key at
commit time, which the `Nodup` guard models. -/
def create_venue_submission (db : DB) (form : VenueForm) : DB × CreateOutcome :=
  let name := strip form.name
  let city := strip form.city
  let state := strip form.state
  let address := strip form.address
  let phone := strip form.phone
  let facebook_link := strip form.facebook_link
  let newDetail : DetailsRow :=
    { id := nextId (db.details.map (fun d => d.id)), city := city, state := state,
      address := address, phone := phone, website := "", image_link := "",
      facebook_link := facebook_link }
  let db1 : DB := { db with details := db.details ++ [newDetail] }
  match queryOne (fun d => d.facebook_link == facebook_link) db1.details with
  | none => (db1, CreateOutcome.errorFlash)
  | some detail =>
    match resolveGenres db1.genres form.genres with
    | none => (db1, CreateOutcome.errorFlash)
    | some gs =>
      let newVenue : VenueRow :=
        { id := nextId (db1.venues.map (fun v => v.id)), details_id := detail.id,
          name := name, seeking_talent := false, seeking_text := "" }
      if (gs.map (fun g => g.id)).Nodup then
        ({ db1 with venues := db1.venues ++ [newVenue],
                    venue_genres := db1.venue_genres ++ gs.map (fun g => (g.id, newVenue.id)) },
         CreateOutcome.success)
      else (db1, CreateOutcome.errorFlash)

/-- `create_artist_submission` (app.py lines 750-798); same shape as the
venue create, without an address field. -/
def create_artist_submission (db : DB) (form : ArtistForm) : DB × CreateOutcome :=
  let name := strip form.name
  let city := strip form.city
  let state := strip form.state
  let phone := strip form.phone
  let facebook_link := strip form.facebook_link
  let newDetail : DetailsRow :=
    { id := nextId (db.details.map (fun d => d.id)), city := city, state := state,
      address := "", phone := phone, website := "", image_link := "",
      facebook_link := facebook_link }
  let db1 : DB := { db with details := db.details ++ [newDetail] }
  match queryOne (fun d => d.facebook_link == facebook_link) db1.details with
  | none => (db1, CreateOutcome.errorFlash)
  | some detail =>
    match resolveGenres db1.genres form.genres with
    | none => (db1, CreateOutcome.errorFlash)
    | some gs =>
      let newArtist : ArtistRow :=
        { id := nextId (db1.artists.map (fun a => a.id)), details_id := detail.id,
          name := name, seeking_venue := false, seeking_text := "" }
      if (gs.map (fun g => g.id)).Nodup then
        ({ db1 with artists := db1.artists ++ [newArtist],
                    artist_genres := db1.artist_genres ++ gs.map (fun g => (g.id, newArtist.id)) },
         CreateOutcome.success)
      else (db1, CreateOutcome.errorFlash)

/-- `delete_venue` (app.py lines 383-412).

`Venue.query.filter_by(id=venue_id).one()` runs outside the try block, so a
missing id raises `NoResultFound` uncaught (500 page, database unchanged).
`Show.venue_id` is a non-nullable foreign key and the `shows` relationship
has no delete cascade, so committing the delete of a venue that still has
shows fails (the ORM tries to null the children's foreign key), which the
handler catches and turns into `abort(500)` after rolling back.  On a
successful commit the venue row and its `venue_genres` association rows are
gone; the handler then evaluates `jsonify`, a name the import block never
binds, so the response depends on `jsonifyDefined`. -/
def delete_venue (db : DB) (venue_id : Nat) : DB × DeleteOutcome :=
  match queryOne (fun v => v.id == venue_id) db.venues with
  | none => (db, DeleteOutcome.serverError)
  | some venue =>
    if db.shows.any (fun s => s.venue_id == venue.id) then
      (db, DeleteOutcome.serverError)
    else
      ({ db with venues := db.venues.filter (fun v => !(v.id == venue.id)),
                 venue_genres := db.venue_genres.filter (fun p => !(p.2 == venue.id)) },
       if jsonifyDefined then DeleteOutcome.jsonDeletedTrue else DeleteOutcome.serverError)

/-- `edit_artist_submission` (app.py lines 602-648).

Field extraction strips every field except `phone` (line 612, no `.strip()`).
`artist` is fetched with `.one_or_none()`; if it is `None`, the
`artist.details_id` attribute access on line 617 raises before the try block
(500 page, database unchanged), and the `detail` `.one()` on the same line
can also raise there.  Inside the try block the handler overwrites the name
and detail fields, clears the artist's association rows, and re-adds one per
submitted genre name; any failure rolls the whole transaction back. -/
def edit_artist_submission (db : DB) (artist_id : Nat) (form : ArtistForm) :
    DB × EditOutcome :=
  let name := strip form.name
  let city := strip form.city
  let state := strip form.state
  let phone := form.phone
  let facebook_link := strip form.facebook_link
  match queryOneOrNone (fun a => a.id == artist_id) db.artists with
  | none => (db, EditOutcome.serverError)
  | some none => (db, EditOutcome.serverError)
  | some (some artist) =>
    match queryOne (fun d => d.id == artist.details_id) db.details with
    | none => (db, EditOutcome.serverError)
    | some _ =>
      match resolveGenres db.genres form.genres with
      | none => (db, EditOutcome.serverError)
      | some gs =>
        if (gs.map (fun g => g.id)).Nodup then
          ({ db with
             artists := db.artists.map (fun a =>
               if a.id == artist.id then { a with name := name } else a),
             details := db.details.map (fun d =>
               if d.id == artist.details_id then
                 { d with city := city, state := state, phone := phone,
                          facebook_link := facebook_link }
               else d),
             artist_genres := db.artist_genres.filter (fun p => !(p.2 == artist.id))
               ++ gs.map (fun g => (g.id, artist.id)) },
           EditOutcome.redirect artist_id)
        else (db, EditOutcome.serverError)

/-- `edit_venue_submission` (app.py lines 695-740); identical shape to the
artist edit except that `phone` is stripped (line 705). -/
def edit_venue_submission (db : DB) (venue_id : Nat) (form : VenueForm) :
    DB × EditOutcome :=
  let name := strip form.name
  let city := strip form.city
  let state := strip form.state
  let phone := strip form.phone
  let facebook_link := strip form.facebook_link
  match queryOneOrNone (fun v => v.id == venue_id) db.venues with
  | none => (db, EditOutcome.serverError)
  | some none => (db, EditOutcome.serverError)
  | some (some venue) =>
    match queryOne (fun d => d.id == venue.details_id) db.details with
    | none => (db, EditOutcome.serverError)
    | some _ =>
      match resolveGenres db.genres form.genres with
      | none => (db, EditOutcome.serverError)
      | some gs =>
        if (gs.map (fun g => g.id)).Nodup then
          ({ db with
             venues := db.venues.map (fun v =>
               if v.id == venue.id then { v with name := name } else v),
             details := db.details.map (fun d =>
               if d.id == venue.details_id then
                 { d with city := city, state := state, phone := phone,
                          facebook_link := facebook_link }
               else d),
             venue_genres := db.venue_genres.filter (fun p => !(p.2 == venue.id))
               ++ gs.map (fun g => (g.id, venue.id)) },
           EditOutcome.redirect venue_id)
        else (db, EditOutcome.serverError)

/-- `create_show_submission` (app.py lines 836-874).

The `upcoming` column is computed once, before the insert, as
`startTime > datetime.now()`.  The insert commits only if both id strings
parse and satisfy the non-nullable foreign keys to Artist and Venue;
otherwise the commit raises, the transaction rolls back and the error flash
is shown. -/
def create_show_submission (db : DB) (form : ShowForm) (now : Int) :
    DB × CreateOutcome :=
  let upcomingShow : Bool := decide (now < form.start_time)
  match parseNat? (strip form.venue_id), parseNat? (strip form.artist_id) with
  | some vid, some aid =>
    if db.venues.any (fun v => v.id == vid) && db.artists.any (fun a => a.id == aid) then
      ({ db with shows := db.shows ++
          [{ id := nextId (db.shows.map (fun s => s.id)), artist_id := aid,
             venue_id := vid, upcoming := upcomingShow,
             start_time := form.start_time }] },
       CreateOutcome.success)
    else (db, CreateOutcome.errorFlash)
  | _, _ => (db, CreateOutcome.errorFlash)

/-- The complete set of database-mutating operations of the system: every
POST/DELETE route handler of app.py.  All remaining routes are reads. -/
inductive Op where
  | createVenue (form : VenueForm)
  | createArtist (form : ArtistForm)
  | deleteVenue (venue_id : Nat)
  | editArtist (artist_id : Nat) (form : ArtistForm)
  | editVenue (venue_id : Nat) (form : VenueForm)
  | createShow (form : ShowForm) (now : Int)

/-- The database state after one mutating operation. -/
def applyOp (db : DB) : Op → DB
  | Op.createVenue form => (create_venue_submission db form).1
  | Op.createArtist form => (create_artist_submission db form).1
  | Op.deleteVenue vid => (delete_venue db vid).1
  | Op.editArtist aid form => (edit_artist_submission db aid form).1
  | Op.editVenue vid form => (edit_venue_submission db vid form).1
  | Op.createShow form now => (create_show_submission db form now).1

/-! ## Spec-side search definitions (for the refinement claim C8)

The spec describes search as: "exactly those entities whose name contains the
term as a substring under case-insensitive comparison, at any position
(unanchored)".  The following definitions follow those words, independently
of the code's `ilike`, so the two can be compared. -/

/-- Whether the list `t` occurs at the very front of `s`. -/
def leadsWith : List Char → List Char → Bool
  | [], _ => true
  | _ :: _, [] => false
  | c :: t, d :: s => c == d && leadsWith t s

/-- Whether the list `t` occurs inside `s` at any position. -/
def hasSub (t : List Char) : List Char → Bool
  | [] => t.isEmpty
  | d :: s => leadsWith t (d :: s) || hasSub t s

/-- Spec words: the name contains the term as a substring, case-insensitively,
at any position. -/
def specSearchMatch (term name : String) : Bool :=
  hasSub (term.toList.map Char.toLower) (name.toList.map Char.toLower)

/-- Spec words for venue search: the matches are exactly the venues whose
name contains the term, with their count. -/
def specSearchVenues (db : DB) (term : String) : SearchResponse :=
  let found := db.venues.filter (fun v => specSearchMatch term v.name)
  { count := found.length, data := found.map (fun v => (v.id, v.name)) }

/-- Spec words for artist search. -/
def specSearchArtists (db : DB) (term : String) : SearchResponse :=
  let found := db.artists.filter (fun a => specSearchMatch term a.name)
  { count := found.length, data := found.map (fun a => (a.id, a.name)) }

/-- A character that SQL LIKE treats literally: neither a wildcard nor the
escape character. -/
def plainChar (c : Char) : Bool := !(c == '%') && !(c == '_') && !(c == '\\')

/-! ## Lemmas about `likeMatch` -/

theorem likeMatch_pct_unfold (ps s : List Char) :
    likeMatch ('%' :: ps) s = s.tails.any (fun s2 => likeMatch ps s2) := by
  rw [likeMatch.eq_def]
  simp

theorem likeMatch_plain_nil (c : Char) (ps : List Char) (hp : (c == '%') = false) :
    likeMatch (c :: ps) [] = false := by
  rw [likeMatch.eq_def]
  simp only [hp, Bool.false_eq_true, if_false]
  by_cases hb : (c == '\\') = true
  · rw [if_pos hb]
    cases ps <;> rfl
  · rw [if_neg (by simpa using hb)]

theorem likeMatch_plain_cons (c : Char) (ps : List Char) (d : Char) (ss : List Char)
    (hp : (c == '%') = false) (hu : (c == '_') = false) (hb : (c == '\\') = false) :
    likeMatch (c :: ps) (d :: ss) = (c == d && likeMatch ps ss) := by
  rw [likeMatch.eq_def]
  simp [hp, hu, hb]

theorem likeMatch_pct_split (ps s : List Char) :
    likeMatch ('%' :: ps) s = true ↔ ∃ s1 s2, s = s1 ++ s2 ∧ likeMatch ps s2 = true := by
  rw [likeMatch_pct_unfold, List.any_eq_true]
  constructor
  · rintro ⟨s2, hsuf, hm⟩
    rw [List.mem_tails] at hsuf
    obtain ⟨s1, rfl⟩ := hsuf
    exact ⟨s1, s2, rfl, hm⟩
  · rintro ⟨s1, s2, rfl, hm⟩
    exact ⟨s2, (List.mem_tails s2 (s1 ++ s2)).mpr ⟨s1, rfl⟩, hm⟩

theorem likeMatch_plain_pct (t : List Char) (h : t.all plainChar = true) :
    ∀ s, likeMatch (t ++ ['%']) s = true ↔ ∃ r, s = t ++ r := by
  induction t with
  | nil =>
    intro s
    rw [List.nil_append, likeMatch_pct_unfold, List.any_eq_true]
    constructor
    · intro _
      exact ⟨s, rfl⟩
    · intro _
      refine ⟨[], ?_, rfl⟩
      rw [List.mem_tails]
      exact List.nil_suffix
  | cons c t ih =>
    rw [List.all_cons, Bool.and_eq_true] at h
    obtain ⟨hc, ht⟩ := h
    rw [plainChar, Bool.and_eq_true, Bool.and_eq_true, Bool.not_eq_true',
      Bool.not_eq_true', Bool.not_eq_true'] at hc
    obtain ⟨⟨hp, hu⟩, hb⟩ := hc
    intro s
    rw [List.cons_append]
    cases s with
    | nil =>
      rw [likeMatch_plain_nil c _ hp]
      simp
    | cons d s =>
      rw [likeMatch_plain_cons c _ d s hp hu hb, Bool.and_eq_true, beq_iff_eq, ih ht]
      constructor
      · rintro ⟨rfl, r, rfl⟩
        exact ⟨r, rfl⟩
      · rintro ⟨r, heq⟩
        rw [List.cons_append, List.cons.injEq] at heq
        exact ⟨heq.1.symm, r, heq.2⟩

theorem leadsWith_iff (t : List Char) : ∀ s, leadsWith t s = true ↔ ∃ r, s = t ++ r := by
  induction t with
  | nil =>
    intro s
    simp [leadsWith]
  | cons c t ih =>
    intro s
    cases s with
    | nil => simp [leadsWith]
    | cons d s =>
      rw [leadsWith, Bool.and_eq_true, beq_iff_eq, ih]
      constructor
      · rintro ⟨rfl, r, rfl⟩
        exact ⟨r, rfl⟩
      · rintro ⟨r, heq⟩
        rw [List.cons_append, List.cons.injEq] at heq
        exact ⟨heq.1.symm, r, heq.2⟩

theorem leadsWith_eps (t : List Char) : leadsWith t [] = t.isEmpty := by
  cases t <;> rfl

theorem hasSub_iff (t s : List Char) :
    hasSub t s = true ↔ ∃ s1 s2, s = s1 ++ s2 ∧ leadsWith t s2 = true := by
  induction s with
  | nil =>
    rw [hasSub]
    constructor
    · intro h
      exact ⟨[], [], rfl, by rw [leadsWith_eps]; exact h⟩
    · rintro ⟨s1, s2, heq, h⟩
      obtain ⟨h1, h2⟩ := List.append_eq_nil.mp heq.symm
      subst h2
      rwa [leadsWith_eps] at h
  | cons d s ih =>
    rw [hasSub, Bool.or_eq_true, ih]
    constructor
    · rintro (h | ⟨s1, s2, heq, h⟩)
      · exact ⟨[], d :: s, rfl, h⟩
      · exact ⟨d :: s1, s2, by rw [heq, List.cons_append], h⟩
    · rintro ⟨s1, s2, heq, h⟩
      cases s1 with
      | nil =>
        left
        rw [List.nil_append] at heq
        rwa [heq]
      | cons e s1 =>
        right
        rw [List.cons_append, List.cons.injEq] at heq
        exact ⟨s1, s2, heq.2, h⟩

theorem likeMatch_eq_hasSub (t s : List Char) (h : t.all plainChar = true) :
    likeMatch ('%' :: (t ++ ['%'])) s = hasSub t s := by
  have key : ∀ a b : Bool, (a = true ↔ b = true) → a = b := by decide
  apply key
  rw [likeMatch_pct_split, hasSub_iff]
  constructor
  · rintro ⟨s1, s2, heq, hm⟩
    obtain ⟨r, hr⟩ := (likeMatch_plain_pct t h s2).mp hm
    exact ⟨s1, s2, heq, (leadsWith_iff t s2).mpr ⟨r, hr⟩⟩
  · rintro ⟨s1, s2, heq, hl⟩
    obtain ⟨r, hr⟩ := (leadsWith_iff t s2).mp hl
    exact ⟨s1, s2, heq, (likeMatch_plain_pct t h s2).mpr ⟨r, hr⟩⟩

theorem string_toList_append (a b : String) : (a ++ b).toList = a.toList ++ b.toList := by
  cases a; cases b; rfl

theorem likeMatch_single_pct (s : List Char) : likeMatch ['%'] s = true :=
  (likeMatch_pct_split [] s).mpr ⟨s, [], (List.append_nil s).symm, rfl⟩

theorem ilike_pct_pct (name : String) : ilike "%%" name = true := by
  rw [ilike, (rfl : ("%%").toList.map Char.toLower = ['%', '%'])]
  exact (likeMatch_pct_split ['%'] _).mpr ⟨[], _, rfl, likeMatch_single_pct _⟩

theorem ilike_pattern_eq (t name : String) :
    ilike ("%" ++ t ++ "%") name
      = likeMatch ('%' :: (t.toList.map Char.toLower ++ ['%']))
          (name.toList.map Char.toLower) := by
  rw [ilike, string_toList_append, string_toList_append, List.map_append, List.map_append]
  rfl

theorem queryOne_single {α : Type} {p : α → Bool} {l : List α} {x : α}
    (h : l.filter p = [x]) : queryOne p l = some x := by
  simp only [queryOne, h]

theorem queryOneOrNone_zero {α : Type} {p : α → Bool} {l : List α}
    (h : l.filter p = []) : queryOneOrNone p l = some none := by
  simp only [queryOneOrNone, h]

theorem queryOneOrNone_one {α : Type} {p : α → Bool} {l : List α} {x : α}
    (h : l.filter p = [x]) : queryOneOrNone p l = some (some x) := by
  simp only [queryOneOrNone, h]

theorem length_filter_partition {α : Type} (l : List α) (p : α → Bool) :
    (l.filter p).length + (l.filter (fun x => !p x)).length = l.length := by
  induction l with
  | nil => rfl
  | cons x xs ih =>
    cases hx : p x
    · simp [List.filter_cons, hx]
      omega
    · simp [List.filter_cons, hx]
      omega

/-! ## Claim theorems -/

/-- C10: searching with the empty search term yields the pattern `%%`, which
every name satisfies, so the returned count equals the total number of rows
in the venue (respectively artist) table. -/
theorem search_empty_term_matches_all (db : DB) :
    (search_venues db "").count = db.venues.length ∧
    (search_artists db "").count = db.artists.length := by
  have hpat : ("%" ++ strip "" ++ "%") = "%%" := rfl
  have hv : db.venues.filter (fun v => ilike ("%" ++ strip "" ++ "%") v.name) = db.venues :=
    List.filter_eq_self.mpr (fun v _ => by rw [hpat]; exact ilike_pct_pct v.name)
  have ha : db.artists.filter (fun a => ilike ("%" ++ strip "" ++ "%") a.name) = db.artists :=
    List.filter_eq_self.mpr (fun a _ => by rw [hpat]; exact ilike_pct_pct a.name)
  constructor
  · show (db.venues.filter (fun v => ilike ("%" ++ strip "" ++ "%") v.name)).length = _
    rw [hv]
  · show (db.artists.filter (fun a => ilike ("%" ++ strip "" ++ "%") a.name)).length = _
    rw [ha]

/-- Database used to refute C8 as literally stated: one venue named `"b"`. -/
def searchCxDb : DB :=
  { genres := [], details := [], venues := [⟨1, 1, "b", false, ""⟩], artists := [],
    shows := [], artist_genres := [], venue_genres := [] }

/-- C8 counterexample: for the search term `" % "` the handler strips the
term and treats `%` as a SQL wildcard, so the venue named `"b"` is returned
(count 1) even though no venue name contains the term `" % "` as a substring;
the response differs from the spec-words response. -/
theorem search_substring_claim_cx :
    (search_venues searchCxDb " % ").count = 1 ∧
    (searchCxDb.venues.filter (fun v => specSearchMatch " % " v.name)).length = 0 ∧
    search_venues searchCxDb " % " ≠ specSearchVenues searchCxDb " % " := by decide

/-- C8 (amended): for every search term whose stripped, lowercased form
contains no SQL wildcard (`%`, `_`) and no escape character (`\`), the
search operation returns exactly those venues (respectively artists) whose
name contains the *stripped* term as a substring under case-insensitive
comparison, at any position, together with the count of such matches. -/
theorem search_matches_trimmed_plain_substring (db : DB) (term : String)
    (h : ((strip term).toList.map Char.toLower).all plainChar = true) :
    (search_venues db term).data =
      (db.venues.filter (fun v => specSearchMatch (strip term) v.name)).map
        (fun v => (v.id, v.name)) ∧
    (search_venues db term).count =
      (db.venues.filter (fun v => specSearchMatch (strip term) v.name)).length ∧
    (search_artists db term).data =
      (db.artists.filter (fun a => specSearchMatch (strip term) a.name)).map
        (fun a => (a.id, a.name)) ∧
    (search_artists db term).count =
      (db.artists.filter (fun a => specSearchMatch (strip term) a.name)).length := by
  have hfun : ∀ name : String,
      ilike ("%" ++ strip term ++ "%") name = specSearchMatch (strip term) name := by
    intro name
    rw [ilike_pattern_eq]
    exact likeMatch_eq_hasSub _ _ h
  have hv : db.venues.filter (fun v => ilike ("%" ++ strip term ++ "%") v.name)
      = db.venues.filter (fun v => specSearchMatch (strip term) v.name) :=
    List.filter_congr (fun v _ => hfun v.name)
  have ha : db.artists.filter (fun a => ilike ("%" ++ strip term ++ "%") a.name)
      = db.artists.filter (fun a => specSearchMatch (strip term) a.name) :=
    List.filter_congr (fun a _ => hfun a.name)
  refine ⟨?_, ?_, ?_, ?_⟩
  · show (db.venues.filter (fun v => ilike ("%" ++ strip term ++ "%") v.name)).map _ = _
    rw [hv]
  · show (db.venues.filter (fun v => ilike ("%" ++ strip term ++ "%") v.name)).length = _
    rw [hv]
  · show (db.artists.filter (fun a => ilike ("%" ++ strip term ++ "%") a.name)).map _ = _
    rw [ha]
  · show (db.artists.filter (fun a => ilike ("%" ++ strip term ++ "%") a.name)).length = _
    rw [ha]

/-- Witness for the amended C8 at a concrete database and the term `" aB "`:
the hypothesis holds and the search returns exactly the case-insensitive
substring matches of the stripped term. -/
theorem search_matches_trimmed_plain_substring_witness :
    ((strip " aB ").toList.map Char.toLower).all plainChar = true ∧
    ((search_venues searchCxDb " aB ").data =
      (searchCxDb.venues.filter (fun v => specSearchMatch (strip " aB ") v.name)).map
        (fun v => (v.id, v.name)) ∧
    (search_venues searchCxDb " aB ").count =
      (searchCxDb.venues.filter (fun v => specSearchMatch (strip " aB ") v.name)).length ∧
    (search_artists searchCxDb " aB ").data =
      (searchCxDb.artists.filter (fun a => specSearchMatch (strip " aB ") a.name)).map
        (fun a => (a.id, a.name)) ∧
    (search_artists searchCxDb " aB ").count =
      (searchCxDb.artists.filter (fun a => specSearchMatch (strip " aB ") a.name)).length) :=
  ⟨by decide, search_matches_trimmed_plain_substring searchCxDb " aB " (by decide)⟩

/-- C3: for every id matching no venue (respectively no artist), the
detail-page assembler returns — without throwing — a record whose id field is
the literal error marker string `'ID Error: Not Found!'` and whose every
other field is the blank string. -/
theorem show_missing_id_sentinel (db : DB) (vid aid : Nat)
    (hv : ∀ v ∈ db.venues, v.id ≠ vid) (ha : ∀ a ∈ db.artists, a.id ≠ aid) :
    show_venue db vid = some blankVenuePage ∧ show_artist db aid = some blankArtistPage := by
  have hvf : db.venues.filter (fun v => v.id == vid) = [] :=
    List.filter_eq_nil_iff.mpr (fun v hvm => by simpa using hv v hvm)
  have haf : db.artists.filter (fun a => a.id == aid) = [] :=
    List.filter_eq_nil_iff.mpr (fun a ham => by simpa using ha a ham)
  constructor
  · simp only [show_venue, queryOneOrNone_zero hvf]
  · simp only [show_artist, queryOneOrNone_zero haf]

/-- Witness for C3 at the empty database and id 1: the sentinel record is
returned by both assemblers, and its fields are literally the error marker
and blanks. -/
theorem show_missing_id_sentinel_witness :
    (∀ v ∈ (DB.mk [] [] [] [] [] [] []).venues, v.id ≠ 1) ∧
    (∀ a ∈ (DB.mk [] [] [] [] [] [] []).artists, a.id ≠ 1) ∧
    (show_venue (DB.mk [] [] [] [] [] [] []) 1 = some blankVenuePage ∧
     show_artist (DB.mk [] [] [] [] [] [] []) 1 = some blankArtistPage) ∧
    blankVenuePage.id = Val.s "ID Error: Not Found!" ∧
    blankVenuePage.name = Val.s "" :=
  ⟨by decide, by decide,
   show_missing_id_sentinel (DB.mk [] [] [] [] [] [] []) 1 1 (by decide) (by decide),
   by decide, by decide⟩

/-- C4: for every venue id present in the database, the detail page's
`upcoming_shows_count` plus `past_shows_count` equals the total number of
Show rows referencing that venue, and a show is counted in the upcoming
partition exactly when its stored `upcoming` flag is true. -/
theorem show_venue_counts (db : DB) (vid : Nat) (venue : VenueRow) (detail : DetailsRow)
    (hv : db.venues.filter (fun v => v.id == vid) = [venue])
    (hd : db.details.filter (fun d => d.id == venue.details_id) = [detail])
    (hwf : (venueShows db venue).all (fun s => (artistOfShow db s).isSome) = true) :
    ∃ page, show_venue db vid = some page ∧
      page.upcoming_shows_count =
        Val.n ((db.shows.filter (fun s => s.venue_id == vid)).filter (fun s => s.upcoming)).length ∧
      page.past_shows_count =
        Val.n ((db.shows.filter (fun s => s.venue_id == vid)).filter (fun s => !s.upcoming)).length ∧
      ((db.shows.filter (fun s => s.venue_id == vid)).filter (fun s => s.upcoming)).length +
        ((db.shows.filter (fun s => s.venue_id == vid)).filter (fun s => !s.upcoming)).length =
        (db.shows.filter (fun s => s.venue_id == vid)).length := by
  have hvid : venue.id = vid := by
    have hm : venue ∈ db.venues.filter (fun v => v.id == vid) := by
      rw [hv]; exact List.mem_cons_self venue []
    simpa using (List.mem_filter.mp hm).2
  have hshows : venueShows db venue = db.shows.filter (fun s => s.venue_id == vid) := by
    rw [venueShows, hvid]
  refine ⟨{ id := Val.n vid, name := Val.s venue.name,
            genres := Val.strs (venueGenreNames db venue), state := Val.s detail.state,
            city := Val.s detail.city, address := Val.s detail.address,
            phone := Val.s detail.phone, website := Val.s detail.website,
            facebook_link := Val.s detail.facebook_link,
            seeking_talent := Val.b venue.seeking_talent,
            seeking_description := Val.s venue.seeking_text,
            past_shows := Val.shows (((venueShows db venue).filter (fun s => !s.upcoming)).map
              (venueShowEntry db)),
            past_shows_count := Val.n ((venueShows db venue).filter (fun s => !s.upcoming)).length,
            upcoming_shows := Val.shows (((venueShows db venue).filter (fun s => s.upcoming)).map
              (venueShowEntry db)),
            upcoming_shows_count := Val.n ((venueShows db venue).filter (fun s => s.upcoming)).length,
            image_link := Val.s detail.image_link }, ?_, ?_, ?_, ?_⟩
  · simp only [show_venue, queryOneOrNone_one hv, queryOne_single hd, hwf, if_true]
  · simp only [hshows]
  · simp only [hshows]
  · exact length_filter_partition _ _

/-- Database used to witness C4: one venue with one upcoming and one past
show. -/
def countsDb : DB :=
  { genres := [],
    details := [⟨1, "SF", "CA", "1 Main", "555", "", "img1", "fb1"⟩,
                ⟨2, "LA", "CA", "", "556", "", "img2", "fb2"⟩],
    venues := [⟨1, 1, "The Spot", false, ""⟩],
    artists := [⟨1, 2, "Band", false, ""⟩],
    shows := [⟨1, 1, 1, true, 100⟩, ⟨2, 1, 1, false, -50⟩],
    artist_genres := [], venue_genres := [] }

/-- Witness for C4 at `countsDb`: venue 1 has two shows, one flagged
upcoming, one not, and the page counts add up to 2. -/
theorem show_venue_counts_witness :
    countsDb.venues.filter (fun v => v.id == 1) = [⟨1, 1, "The Spot", false, ""⟩] ∧
    countsDb.details.filter (fun d => d.id == (1 : Nat)) =
      [⟨1, "SF", "CA", "1 Main", "555", "", "img1", "fb1"⟩] ∧
    (venueShows countsDb ⟨1, 1, "The Spot", false, ""⟩).all
      (fun s => (artistOfShow countsDb s).isSome) = true ∧
    (∃ page, show_venue countsDb 1 = some page ∧
      page.upcoming_shows_count =
        Val.n ((countsDb.shows.filter (fun s => s.venue_id == 1)).filter (fun s => s.upcoming)).length ∧
      page.past_shows_count =
        Val.n ((countsDb.shows.filter (fun s => s.venue_id == 1)).filter (fun s => !s.upcoming)).length ∧
      ((countsDb.shows.filter (fun s => s.venue_id == 1)).filter (fun s => s.upcoming)).length +
        ((countsDb.shows.filter (fun s => s.venue_id == 1)).filter (fun s => !s.upcoming)).length =
        (countsDb.shows.filter (fun s => s.venue_id == 1)).length) :=
  ⟨by decide, by decide, by decide,
   show_venue_counts countsDb 1 ⟨1, 1, "The Spot", false, ""⟩
     ⟨1, "SF", "CA", "1 Main", "555", "", "img1", "fb1"⟩
     (by decide) (by decide) (by decide)⟩

theorem countP_beq_eq_one_of_nodup {α : Type} [BEq α] [LawfulBEq α] (l : List α)
    (hl : l.Nodup) (a : α) (ha : a ∈ l) : l.countP (fun x => x == a) = 1 := by
  induction l with
  | nil => cases ha
  | cons x xs ih =>
    rw [List.nodup_cons] at hl
    rw [List.countP_cons]
    by_cases hxa : x = a
    · subst hxa
      have hzero : xs.countP (fun y => y == x) = 0 :=
        List.countP_eq_zero.mpr (fun y hy => by
          simp only [beq_iff_eq]
          intro heq
          exact hl.1 (heq ▸ hy))
      simp [hzero]
    · have hax : a ∈ xs := by
        cases List.mem_cons.mp ha with
        | inl h => exact absurd h.symm hxa
        | inr h => exact h
      have : (x == a) = false := beq_eq_false_iff_ne.mpr hxa
      simp [this, ih hl.2 hax]

/-- C9: the venue listing produces one group per distinct `(city, state)`
pair occurring among the venues' Details rows; each group lists exactly the
venues whose Details row has that city and state; and every venue appears in
exactly one group. -/
theorem venues_grouped_by_place (db : DB) (hwf : venuesWf db = true) :
    ∃ groups, venuesHandler db = some groups ∧
      (groups.map (fun g => (g.city, g.state))).Nodup ∧
      groups.map (fun g => (g.city, g.state)) = (db.venues.map (venuePlace db)).dedup ∧
      (∀ g ∈ groups, g.venues =
        (db.venues.filter (fun v => venuePlace db v == (g.city, g.state))).map
          (fun v => (v.id, v.name))) ∧
      (∀ v ∈ db.venues,
        (groups.filter (fun g => (g.city, g.state) == venuePlace db v)).length = 1) := by
  have hcomp : ((fun (g : VenueGroup) => (g.city, g.state)) ∘ venueGroupOf db) = id := by
    funext p
    exact Prod.mk.eta
  have hkey : (((db.venues.map (venuePlace db)).dedup).map (venueGroupOf db)).map
      (fun g => (g.city, g.state)) = (db.venues.map (venuePlace db)).dedup := by
    rw [List.map_map, hcomp, List.map_id]
  refine ⟨((db.venues.map (venuePlace db)).dedup).map (venueGroupOf db), ?_, ?_, ?_, ?_, ?_⟩
  · simp only [venuesHandler, hwf, if_true]
  · rw [hkey]
    exact List.nodup_dedup _
  · exact hkey
  · intro g hg
    obtain ⟨p, hp, rfl⟩ := List.mem_map.mp hg
    simp only [venueGroupOf, Prod.mk.eta]
  · intro v hv
    have hpred : ((fun (g : VenueGroup) => (g.city, g.state) == venuePlace db v) ∘ venueGroupOf db)
        = (fun p => p == venuePlace db v) := rfl
    have h1 : ((((db.venues.map (venuePlace db)).dedup).map (venueGroupOf db)).filter
        (fun g => (g.city, g.state) == venuePlace db v)).length
        = (((db.venues.map (venuePlace db)).dedup).map (venueGroupOf db)).countP
            (fun g => (g.city, g.state) == venuePlace db v) :=
      (List.countP_eq_length_filter _ _).symm
    rw [h1]
    rw [List.countP_map]
    rw [hpred]
    exact countP_beq_eq_one_of_nodup _ (List.nodup_dedup _) _
      (List.mem_dedup.mpr (List.mem_map_of_mem _ hv))

/-- Database used to witness C9: three venues, two of them sharing the same
`(city, state)` pair. -/
def groupsDb : DB :=
  { genres := [],
    details := [⟨1, "SF", "CA", "", "", "", "", "f1"⟩,
                ⟨2, "LA", "CA", "", "", "", "", "f2"⟩,
                ⟨3, "SF", "CA", "", "", "", "", "f3"⟩],
    venues := [⟨1, 1, "A", false, ""⟩, ⟨2, 2, "B", false, ""⟩, ⟨3, 3, "C", false, ""⟩],
    artists := [], shows := [], artist_genres := [], venue_genres := [] }

/-- Witness for C9 at `groupsDb`. -/
theorem venues_grouped_by_place_witness :
    venuesWf groupsDb = true ∧
    (∃ groups, venuesHandler groupsDb = some groups ∧
      (groups.map (fun g => (g.city, g.state))).Nodup ∧
      groups.map (fun g => (g.city, g.state)) =
        (groupsDb.venues.map (venuePlace groupsDb)).dedup ∧
      (∀ g ∈ groups, g.venues =
        (groupsDb.venues.filter (fun v => venuePlace groupsDb v == (g.city, g.state))).map
          (fun v => (v.id, v.name))) ∧
      (∀ v ∈ groupsDb.venues,
        (groups.filter (fun g => (g.city, g.state) == venuePlace groupsDb v)).length = 1)) :=
  ⟨by decide, venues_grouped_by_place groupsDb (by decide)⟩

theorem queryOne_props {α : Type} {p : α → Bool} {l : List α} {x : α}
    (h : queryOne p l = some x) : p x = true ∧ x ∈ l := by
  rw [queryOne] at h
  cases hf : l.filter p with
  | nil => rw [hf] at h; cases h
  | cons y ys =>
    cases ys with
    | nil =>
      rw [hf] at h
      cases h
      have hm : x ∈ l.filter p := by rw [hf]; exact List.mem_cons_self x []
      exact ⟨(List.mem_filter.mp hm).2, (List.mem_filter.mp hm).1⟩
    | cons z zs => rw [hf] at h; cases h

theorem resolveGenres_names (table : List Genre) :
    ∀ (names : List String) (gs : List Genre),
      resolveGenres table names = some gs → gs.map (fun g => g.name) = names := by
  intro names
  induction names with
  | nil =>
    intro gs h
    rw [resolveGenres] at h
    cases h
    rfl
  | cons n ns ih =>
    intro gs h
    rw [resolveGenres] at h
    cases hq : queryOne (fun g => g.name == n) table with
    | none => rw [hq] at h; cases h
    | some g =>
      rw [hq] at h
      cases hr : resolveGenres table ns with
      | none => rw [hr] at h; cases h
      | some gs' =>
        rw [hr] at h
        simp only [Option.map_some'] at h
        cases h
        have hgname : g.name = n := by
          have := (queryOne_props hq).1
          simpa using this
        simp only [List.map_cons, hgname, ih gs' hr]

/-- C5: a successful artist edit whose submitted genre names all resolve in
the Genre table replaces the artist's association set entirely: afterwards
the artist has exactly one association row per submitted genre name (in
submission order), and no association from before the edit survives unless
resubmitted; other artists' associations are untouched. -/
theorem edit_artist_genres_replace (db : DB) (aid : Nat) (form : ArtistForm)
    (a : ArtistRow) (gs : List Genre)
    (ha : db.artists.filter (fun x => x.id == aid) = [a])
    (hd : (queryOne (fun d => d.id == a.details_id) db.details).isSome = true)
    (hg : resolveGenres db.genres form.genres = some gs)
    (hnd : (gs.map (fun g => g.id)).Nodup) :
    (edit_artist_submission db aid form).2 = EditOutcome.redirect aid ∧
    (edit_artist_submission db aid form).1.artist_genres.filter (fun p => p.2 == aid)
      = gs.map (fun g => (g.id, aid)) ∧
    gs.map (fun g => g.name) = form.genres ∧
    (edit_artist_submission db aid form).1.artist_genres.filter (fun p => !(p.2 == aid))
      = db.artist_genres.filter (fun p => !(p.2 == aid)) := by
  have haid : a.id = aid := by
    have hm : a ∈ db.artists.filter (fun x => x.id == aid) := by
      rw [ha]; exact List.mem_cons_self a []
    simpa using (List.mem_filter.mp hm).2
  obtain ⟨detail, hdet⟩ := Option.isSome_iff_exists.mp hd
  have heq : edit_artist_submission db aid form =
      ({ db with
         artists := db.artists.map (fun x =>
           if x.id == a.id then { x with name := strip form.name } else x),
         details := db.details.map (fun d =>
           if d.id == a.details_id then
             { d with city := strip form.city, state := strip form.state,
                      phone := form.phone, facebook_link := strip form.facebook_link }
           else d),
         artist_genres := db.artist_genres.filter (fun p => !(p.2 == a.id))
           ++ gs.map (fun g => (g.id, a.id)) },
       EditOutcome.redirect aid) := by
    simp only [edit_artist_submission, queryOneOrNone_one ha, hdet, hg]
    rw [if_pos hnd]
  subst haid
  refine ⟨by rw [heq], ?_, resolveGenres_names db.genres form.genres gs hg, ?_⟩
  · rw [heq]
    show (db.artist_genres.filter (fun p => !(p.2 == a.id))
        ++ gs.map (fun g => (g.id, a.id))).filter (fun p => p.2 == a.id) = _
    rw [List.filter_append]
    have h1 : (db.artist_genres.filter (fun p => !(p.2 == a.id))).filter
        (fun p => p.2 == a.id) = [] := by
      refine List.filter_eq_nil_iff.mpr ?_
      intro x hx
      have := (List.mem_filter.mp hx).2
      simp only [Bool.not_eq_true'] at this
      simp [this]
    have h2 : (gs.map (fun g => (g.id, a.id))).filter (fun p => p.2 == a.id)
        = gs.map (fun g => (g.id, a.id)) := by
      refine List.filter_eq_self.mpr ?_
      intro x hx
      obtain ⟨g, _, rfl⟩ := List.mem_map.mp hx
      simp
    rw [h1, h2, List.nil_append]
  · rw [heq]
    show (db.artist_genres.filter (fun p => !(p.2 == a.id))
        ++ gs.map (fun g => (g.id, a.id))).filter (fun p => !(p.2 == a.id)) = _
    rw [List.filter_append]
    have h1 : (db.artist_genres.filter (fun p => !(p.2 == a.id))).filter
        (fun p => !(p.2 == a.id)) = db.artist_genres.filter (fun p => !(p.2 == a.id)) := by
      refine List.filter_eq_self.mpr ?_
      intro x hx
      exact (List.mem_filter.mp hx).2
    have h2 : (gs.map (fun g => (g.id, a.id))).filter (fun p => !(p.2 == a.id)) = [] := by
      refine List.filter_eq_nil_iff.mpr ?_
      intro x hx
      obtain ⟨g, _, rfl⟩ := List.mem_map.mp hx
      simp
    rw [h1, h2, List.append_nil]

/-- Database used to witness C5: artist 1 currently associated with Jazz. -/
def editDb : DB :=
  { genres := [⟨1, "Jazz"⟩, ⟨2, "Blues"⟩],
    details := [⟨1, "SF", "CA", "", "555", "", "", "fb"⟩],
    venues := [], artists := [⟨1, 1, "Artist", false, ""⟩], shows := [],
    artist_genres := [(1, 1)], venue_genres := [] }

/-- The form submitted in the C5 witness: genre set changed to `{"Blues"}`. -/
def editForm : ArtistForm :=
  { genres := ["Blues"], name := "Artist", city := "SF", state := "CA",
    phone := "555", facebook_link := "fb" }

/-- Witness for C5: editing artist 1 from `{"Jazz"}` to `{"Blues"}` leaves
exactly the one association row `(2, 1)`. -/
theorem edit_artist_genres_replace_witness :
    editDb.artists.filter (fun x => x.id == 1) = [⟨1, 1, "Artist", false, ""⟩] ∧
    (queryOne (fun d => d.id == (1 : Nat)) editDb.details).isSome = true ∧
    resolveGenres editDb.genres editForm.genres = some [⟨2, "Blues"⟩] ∧
    (([⟨2, "Blues"⟩] : List Genre).map (fun g => g.id)).Nodup ∧
    ((edit_artist_submission editDb 1 editForm).2 = EditOutcome.redirect 1 ∧
     (edit_artist_submission editDb 1 editForm).1.artist_genres.filter (fun p => p.2 == 1)
       = ([⟨2, "Blues"⟩] : List Genre).map (fun g => (g.id, 1)) ∧
     ([⟨2, "Blues"⟩] : List Genre).map (fun g => g.name) = editForm.genres ∧
     (edit_artist_submission editDb 1 editForm).1.artist_genres.filter (fun p => !(p.2 == 1))
       = editDb.artist_genres.filter (fun p => !(p.2 == 1))) :=
  ⟨by decide, by decide, by decide, by decide,
   edit_artist_genres_replace editDb 1 editForm ⟨1, 1, "Artist", false, ""⟩ [⟨2, "Blues"⟩]
     (by decide) (by decide) (by decide) (by decide)⟩

theorem resolveGenres_missing (table : List Genre) (names : List String)
    (h : ∃ n ∈ names, table.filter (fun g => g.name == n) = []) :
    resolveGenres table names = none := by
  obtain ⟨n, hn, hf⟩ := h
  induction names with
  | nil => cases hn
  | cons m ms ih =>
    rw [resolveGenres]
    cases List.mem_cons.mp hn with
    | inl heq =>
      subst heq
      rw [show queryOne (fun g => g.name == n) table = none from by rw [queryOne, hf]]
    | inr hmem =>
      cases hq : queryOne (fun g => g.name == m) table with
      | none => rfl
      | some g =>
        rw [ih hmem]
        rfl

/-- C1 (amended): when a submitted genre name is absent from the Genre
table, the create-venue operation fails (error flash) and no Venue row and
no association row is persisted — but the Details row, committed before the
genre lookup (app.py line 353), survives the rollback: the Details table
grows by exactly one row. -/
theorem create_venue_missing_genre (db : DB) (form : VenueForm)
    (h : ∃ n ∈ form.genres, db.genres.filter (fun g => g.name == n) = []) :
    (create_venue_submission db form).2 = CreateOutcome.errorFlash ∧
    (create_venue_submission db form).1.venues = db.venues ∧
    (create_venue_submission db form).1.venue_genres = db.venue_genres ∧
    (create_venue_submission db form).1.details.length = db.details.length + 1 := by
  have hres : resolveGenres db.genres form.genres = none :=
    resolveGenres_missing db.genres form.genres h
  simp only [create_venue_submission, hres]
  split
  · exact ⟨rfl, rfl, rfl, by simp⟩
  · exact ⟨rfl, rfl, rfl, by simp⟩

/-- Database used to refute C1 as literally stated: the Genre table holds
only Jazz. -/
def cxDb1 : DB :=
  { genres := [⟨1, "Jazz"⟩], details := [], venues := [], artists := [],
    shows := [], artist_genres := [], venue_genres := [] }

/-- The create-venue submission used against `cxDb1`: genre Rock does not
exist in the Genre table. -/
def cxForm1 : VenueForm :=
  { genres := ["Rock"], name := "V", city := "c", state := "s", address := "a",
    phone := "p", facebook_link := "fb" }

/-- C1 counterexample: submitting a venue with the unknown genre `"Rock"`
fails as claimed, and the Venue table is unchanged — but the Details table
row count after the operation (1) differs from its count before (0), because
the handler committed the Details insert before looking the genre up.  So
the claim "the row counts of both tables after the operation equal their
counts before it" is false on the code. -/
theorem create_venue_rollback_cx :
    (create_venue_submission cxDb1 cxForm1).2 = CreateOutcome.errorFlash ∧
    (create_venue_submission cxDb1 cxForm1).1.venues.length = cxDb1.venues.length ∧
    (create_venue_submission cxDb1 cxForm1).1.details.length ≠ cxDb1.details.length := by
  decide

/-- Witness for the amended C1 at `cxDb1` and `cxForm1`. -/
theorem create_venue_missing_genre_witness :
    (∃ n ∈ cxForm1.genres, cxDb1.genres.filter (fun g => g.name == n) = []) ∧
    ((create_venue_submission cxDb1 cxForm1).2 = CreateOutcome.errorFlash ∧
     (create_venue_submission cxDb1 cxForm1).1.venues = cxDb1.venues ∧
     (create_venue_submission cxDb1 cxForm1).1.venue_genres = cxDb1.venue_genres ∧
     (create_venue_submission cxDb1 cxForm1).1.details.length = cxDb1.details.length + 1) :=
  ⟨⟨"Rock", by decide, by decide⟩,
   create_venue_missing_genre cxDb1 cxForm1 ⟨"Rock", by decide, by decide⟩⟩

/-- Database used for C2's failing input: venue 1 exists, has one genre
association and no shows, so its deletion commits successfully. -/
def delDb : DB :=
  { genres := [], details := [⟨1, "SF", "CA", "", "", "", "", "fb"⟩],
    venues := [⟨1, 1, "V", false, ""⟩], artists := [], shows := [],
    artist_genres := [], venue_genres := [(4, 1)] }

/-- C2 (code bug): deleting the existing venue 1 removes the venue row (and
its association rows) from the database — but the handler's success path then
evaluates `jsonify`, a name the import block of app.py never binds, so the
response is a `NameError`-driven 500 page instead of the intended JSON body
`{"deleted": true}`.  Deleting a non-existent id yields a 500 with the
database unchanged (never a silent success), as the claim states. -/
theorem delete_venue_jsonify_bug :
    jsonifyDefined = false ∧
    (delete_venue delDb 1).1.venues = [] ∧
    (delete_venue delDb 1).1.venue_genres = [] ∧
    (delete_venue delDb 1).2 = DeleteOutcome.serverError ∧
    (delete_venue delDb 1).2 ≠ DeleteOutcome.jsonDeletedTrue ∧
    delete_venue delDb 2 = (delDb, DeleteOutcome.serverError) := by decide

theorem create_venue_shows_eq (db : DB) (form : VenueForm) :
    (create_venue_submission db form).1.shows = db.shows := by
  simp only [create_venue_submission]
  split
  · rfl
  · split
    · rfl
    · split <;> rfl

theorem create_artist_shows_eq (db : DB) (form : ArtistForm) :
    (create_artist_submission db form).1.shows = db.shows := by
  simp only [create_artist_submission]
  split
  · rfl
  · split
    · rfl
    · split <;> rfl

theorem delete_venue_shows_eq (db : DB) (vid : Nat) :
    (delete_venue db vid).1.shows = db.shows := by
  simp only [delete_venue]
  split
  · rfl
  · split <;> rfl

theorem edit_artist_shows_eq (db : DB) (aid : Nat) (form : ArtistForm) :
    (edit_artist_submission db aid form).1.shows = db.shows := by
  simp only [edit_artist_submission]
  split
  · rfl
  · rfl
  · split
    · rfl
    · split
      · rfl
      · split <;> rfl

theorem edit_venue_shows_eq (db : DB) (vid : Nat) (form : VenueForm) :
    (edit_venue_submission db vid form).1.shows = db.shows := by
  simp only [edit_venue_submission]
  split
  · rfl
  · rfl
  · split
    · rfl
    · split
      · rfl
      · split <;> rfl

theorem create_show_shows_cases (db : DB) (form : ShowForm) (now : Int) :
    (create_show_submission db form now).1.shows = db.shows ∨
    ∃ sh, (create_show_submission db form now).1.shows = db.shows ++ [sh] := by
  simp only [create_show_submission]
  split
  · split
    · right
      exact ⟨_, rfl⟩
    · left
      rfl
  · left
    rfl

theorem applyOp_shows_preserved (db : DB) (op : Op) (s : ShowRow) (hs : s ∈ db.shows) :
    s ∈ (applyOp db op).shows := by
  cases op with
  | createVenue form => rw [applyOp, create_venue_shows_eq]; exact hs
  | createArtist form => rw [applyOp, create_artist_shows_eq]; exact hs
  | deleteVenue vid => rw [applyOp, delete_venue_shows_eq]; exact hs
  | editArtist aid form => rw [applyOp, edit_artist_shows_eq]; exact hs
  | editVenue vid form => rw [applyOp, edit_venue_shows_eq]; exact hs
  | createShow form now =>
    rw [applyOp]
    rcases create_show_shows_cases db form now with h | ⟨sh, h⟩
    · rw [h]; exact hs
    · rw [h]; exact List.mem_append_left _ hs

/-- C6: the `upcoming` flag is assigned exactly once, at creation, as the
comparison of the submitted start time with "now"; every mutating operation
of the system preserves every existing Show row unchanged (so the flag is
never recomputed), and the row created by a successful create-show survives
any later sequence of operations with its flag intact — in particular a show
created with a future start time carries `upcoming = true` forever. -/
theorem upcoming_flag_set_once (db : DB) (form : ShowForm) (now : Int) (db2 : DB)
    (hc : create_show_submission db form now = (db2, CreateOutcome.success)) :
    (∃ sh, db2.shows = db.shows ++ [sh] ∧
      sh.upcoming = decide (now < form.start_time) ∧
      sh.start_time = form.start_time ∧
      (now < form.start_time → sh.upcoming = true) ∧
      ∀ (ops : List Op), sh ∈ (ops.foldl applyOp db2).shows) ∧
    (∀ (op : Op) (s : ShowRow), s ∈ db.shows → s ∈ (applyOp db op).shows) := by
  have hmem : ∀ (d : DB) (sh : ShowRow), sh ∈ d.shows →
      ∀ (ops : List Op), sh ∈ (ops.foldl applyOp d).shows := by
    intro d sh hsh ops
    induction ops generalizing d with
    | nil => exact hsh
    | cons op ops ih => exact ih _ (applyOp_shows_preserved d op sh hsh)
  refine ⟨?_, fun op s hs => applyOp_shows_preserved db op s hs⟩
  simp only [create_show_submission] at hc
  split at hc
  · rename_i vid aid hveq haeq
    split at hc
    · rw [Prod.mk.injEq] at hc
      obtain ⟨hdb, -⟩ := hc
      subst hdb
      refine ⟨{ id := nextId (db.shows.map (fun s => s.id)), artist_id := aid,
                venue_id := vid, upcoming := decide (now < form.start_time),
                start_time := form.start_time },
              rfl, rfl, rfl, fun hfut => by simp [hfut], ?_⟩
      intro ops
      exact hmem _ _ (List.mem_append_right _ (List.mem_cons_self _ _)) ops
    · rw [Prod.mk.injEq] at hc
      cases hc.2
  · rw [Prod.mk.injEq] at hc
    cases hc.2

/-- Database used to witness C6: venue 1 and artist 1 exist and have no
shows yet. -/
def showDb : DB :=
  { genres := [], details := [⟨1, "SF", "CA", "", "", "", "", "f1"⟩,
                              ⟨2, "LA", "CA", "", "", "", "", "f2"⟩],
    venues := [⟨1, 1, "V", false, ""⟩], artists := [⟨1, 2, "A", false, ""⟩],
    shows := [], artist_genres := [], venue_genres := [] }

/-- The show submission of the C6 witness: start time 100, "now" 50. -/
def showForm : ShowForm := { venue_id := "1", artist_id := " 1 ", start_time := 100 }

/-- The database state after the C6 witness submission. -/
def showDb2 : DB := { showDb with shows := [⟨1, 1, 1, true, 100⟩] }

/-- Witness for C6: creating a show whose start time (100) is after "now"
(50) stores `upcoming = true`, and the row survives every later operation. -/
theorem upcoming_flag_set_once_witness :
    create_show_submission showDb showForm 50 = (showDb2, CreateOutcome.success) ∧
    ((∃ sh, showDb2.shows = showDb.shows ++ [sh] ∧
        sh.upcoming = decide ((50 : Int) < showForm.start_time) ∧
        sh.start_time = showForm.start_time ∧
        ((50 : Int) < showForm.start_time → sh.upcoming = true) ∧
        ∀ (ops : List Op), sh ∈ (ops.foldl applyOp showDb2).shows) ∧
     (∀ (op : Op) (s : ShowRow), s ∈ showDb.shows → s ∈ (applyOp showDb op).shows)) :=
  ⟨by decide, upcoming_flag_set_once showDb showForm 50 showDb2 (by decide)⟩

/-- Database used for C7: venue 1 (details 1) and artist 1 (details 2). -/
def trimDb : DB :=
  { genres := [],
    details := [⟨1, "C0", "S0", "A0", "P0", "W0", "I0", "F0"⟩,
                ⟨2, "C1", "S1", "A1", "P1", "W1", "I1", "F1"⟩],
    venues := [⟨1, 1, "V", false, ""⟩], artists := [⟨1, 2, "A", false, ""⟩],
    shows := [], artist_genres := [], venue_genres := [] }

/-- The artist edit of the C7 counterexample: phone submitted as `" 123 "`. -/
def trimForm : ArtistForm :=
  { genres := [], name := "A", city := "c", state := "s", phone := " 123 ",
    facebook_link := "f" }

/-- C7 counterexample: a successful artist edit stores the phone field
exactly as submitted — `" 123 "`, whitespace included — because app.py line
612 reads `form.phone.data` without `.strip()`; so the claim that every
free-text field is trimmed before storage is false on the code. -/
theorem edit_artist_phone_not_trimmed_cx :
    (edit_artist_submission trimDb 1 trimForm).2 = EditOutcome.redirect 1 ∧
    (edit_artist_submission trimDb 1 trimForm).1.details.map (fun d => d.phone)
      = ["P0", " 123 "] ∧
    strip " 123 " ≠ " 123 " := by decide

/-- C7 (amended): in the create-venue, create-artist and edit-venue
submissions every stored free-text field — the entity name and the Details
fields — is the submitted value stripped of leading and trailing whitespace,
with no other normalization; the edit-artist submission also stores stripped
values for every field except `phone`, which is stored exactly as
submitted. -/
theorem field_extraction_trimming
    (dbA : DB) (formA : VenueForm) (dbA' : DB)
    (hA : create_venue_submission dbA formA = (dbA', CreateOutcome.success))
    (dbB : DB) (formB : ArtistForm) (dbB' : DB)
    (hB : create_artist_submission dbB formB = (dbB', CreateOutcome.success))
    (dbC : DB) (vidC : Nat) (formC : VenueForm) (dbC' : DB) (venueC : VenueRow)
    (hCv : dbC.venues.filter (fun v => v.id == vidC) = [venueC])
    (hC : edit_venue_submission dbC vidC formC = (dbC', EditOutcome.redirect vidC))
    (dbD : DB) (aidD : Nat) (formD : ArtistForm) (dbD' : DB) (artistD : ArtistRow)
    (hDa : dbD.artists.filter (fun a => a.id == aidD) = [artistD])
    (hD : edit_artist_submission dbD aidD formD = (dbD', EditOutcome.redirect aidD)) :
    (∃ d v, dbA'.details = dbA.details ++ [d] ∧
      d.city = strip formA.city ∧ d.state = strip formA.state ∧
      d.address = strip formA.address ∧ d.phone = strip formA.phone ∧
      d.facebook_link = strip formA.facebook_link ∧
      dbA'.venues = dbA.venues ++ [v] ∧ v.name = strip formA.name) ∧
    (∃ d a, dbB'.details = dbB.details ++ [d] ∧
      d.city = strip formB.city ∧ d.state = strip formB.state ∧
      d.phone = strip formB.phone ∧ d.facebook_link = strip formB.facebook_link ∧
      dbB'.artists = dbB.artists ++ [a] ∧ a.name = strip formB.name) ∧
    (dbC'.details = dbC.details.map (fun d =>
      if d.id == venueC.details_id then
        { d with city := strip formC.city, state := strip formC.state,
                 phone := strip formC.phone, facebook_link := strip formC.facebook_link }
      else d) ∧
     dbC'.venues = dbC.venues.map (fun v =>
      if v.id == venueC.id then { v with name := strip formC.name } else v)) ∧
    (dbD'.details = dbD.details.map (fun d =>
      if d.id == artistD.details_id then
        { d with city := strip formD.city, state := strip formD.state,
                 phone := formD.phone, facebook_link := strip formD.facebook_link }
      else d) ∧
     dbD'.artists = dbD.artists.map (fun a =>
      if a.id == artistD.id then { a with name := strip formD.name } else a)) := by
  refine ⟨?_, ?_, ?_, ?_⟩
  · simp only [create_venue_submission] at hA
    split at hA
    · simp at hA
    · split at hA
      · simp at hA
      · split at hA
        · rw [Prod.mk.injEq] at hA
          obtain ⟨h1, -⟩ := hA
          subst h1
          exact ⟨_, _, rfl, rfl, rfl, rfl, rfl, rfl, rfl, rfl⟩
        · simp at hA
  · simp only [create_artist_submission] at hB
    split at hB
    · simp at hB
    · split at hB
      · simp at hB
      · split at hB
        · rw [Prod.mk.injEq] at hB
          obtain ⟨h1, -⟩ := hB
          subst h1
          exact ⟨_, _, rfl, rfl, rfl, rfl, rfl, rfl, rfl⟩
        · simp at hB
  · simp only [edit_venue_submission, queryOneOrNone_one hCv] at hC
    cases hq : queryOne (fun d => d.id == venueC.details_id) dbC.details with
    | none => simp [hq] at hC
    | some det =>
      cases hr : resolveGenres dbC.genres formC.genres with
      | none => simp [hq, hr] at hC
      | some gs =>
        by_cases hnd : (gs.map (fun g => g.id)).Nodup
        · simp only [hq, hr, if_pos hnd, Prod.mk.injEq] at hC
          exact ⟨by rw [← hC.1], by rw [← hC.1]⟩
        · simp [hq, hr, if_neg hnd] at hC
  · simp only [edit_artist_submission, queryOneOrNone_one hDa] at hD
    cases hq : queryOne (fun d => d.id == artistD.details_id) dbD.details with
    | none => simp [hq] at hD
    | some det =>
      cases hr : resolveGenres dbD.genres formD.genres with
      | none => simp [hq, hr] at hD
      | some gs =>
        by_cases hnd : (gs.map (fun g => g.id)).Nodup
        · simp only [hq, hr, if_pos hnd, Prod.mk.injEq] at hD
          exact ⟨by rw [← hD.1], by rw [← hD.1]⟩
        · simp [hq, hr, if_neg hnd] at hD

/-- The venue edit used in the C7 witness. -/
def trimVForm : VenueForm :=
  { genres := [], name := " V2 ", city := " c ", state := " s ", address := " a ",
    phone := " p ", facebook_link := " f " }

/-- The database after the C7 witness venue create. -/
def trimDbA : DB := (create_venue_submission trimDb trimVForm).1

/-- The database after the C7 witness artist create. -/
def trimDbB : DB := (create_artist_submission trimDb trimForm).1

/-- The database after the C7 witness venue edit. -/
def trimDbC : DB := (edit_venue_submission trimDb 1 trimVForm).1

/-- The database after the C7 witness artist edit. -/
def trimDbD : DB := (edit_artist_submission trimDb 1 trimForm).1

/-- Witness for the amended C7 at `trimDb` with concrete forms. -/
theorem field_extraction_trimming_witness :
    create_venue_submission trimDb trimVForm = (trimDbA, CreateOutcome.success) ∧
    create_artist_submission trimDb trimForm = (trimDbB, CreateOutcome.success) ∧
    trimDb.venues.filter (fun v => v.id == 1) = [⟨1, 1, "V", false, ""⟩] ∧
    edit_venue_submission trimDb 1 trimVForm = (trimDbC, EditOutcome.redirect 1) ∧
    trimDb.artists.filter (fun a => a.id == 1) = [⟨1, 2, "A", false, ""⟩] ∧
    edit_artist_submission trimDb 1 trimForm = (trimDbD, EditOutcome.redirect 1) ∧
    ((∃ d v, trimDbA.details = trimDb.details ++ [d] ∧
      d.city = strip trimVForm.city ∧ d.state = strip trimVForm.state ∧
      d.address = strip trimVForm.address ∧ d.phone = strip trimVForm.phone ∧
      d.facebook_link = strip trimVForm.facebook_link ∧
      trimDbA.venues = trimDb.venues ++ [v] ∧ v.name = strip trimVForm.name) ∧
    (∃ d a, trimDbB.details = trimDb.details ++ [d] ∧
      d.city = strip trimForm.city ∧ d.state = strip trimForm.state ∧
      d.phone = strip trimForm.phone ∧ d.facebook_link = strip trimForm.facebook_link ∧
      trimDbB.artists = trimDb.artists ++ [a] ∧ a.name = strip trimForm.name) ∧
    (trimDbC.details = trimDb.details.map (fun d =>
      if d.id == (⟨1, 1, "V", false, ""⟩ : VenueRow).details_id then
        { d with city := strip trimVForm.city, state := strip trimVForm.state,
                 phone := strip trimVForm.phone,
                 facebook_link := strip trimVForm.facebook_link }
      else d) ∧
     trimDbC.venues = trimDb.venues.map (fun v =>
      if v.id == (⟨1, 1, "V", false, ""⟩ : VenueRow).id then
        { v with name := strip trimVForm.name }
      else v)) ∧
    (trimDbD.details = trimDb.details.map (fun d =>
      if d.id == (⟨1, 2, "A", false, ""⟩ : ArtistRow).details_id then
        { d with city := strip trimForm.city, state := strip trimForm.state,
                 phone := trimForm.phone,
                 facebook_link := strip trimForm.facebook_link }
      else d) ∧
     trimDbD.artists = trimDb.artists.map (fun a =>
      if a.id == (⟨1, 2, "A", false, ""⟩ : ArtistRow).id then
        { a with name := strip trimForm.name }
      else a))) :=
  ⟨by decide, by decide, by decide, by decide, by decide, by decide,
   field_extraction_trimming trimDb trimVForm trimDbA (by decide)
     trimDb trimForm trimDbB (by decide)
     trimDb 1 trimVForm trimDbC ⟨1, 1, "V", false, ""⟩ (by decide) (by decide)
     trimDb 1 trimForm trimDbD ⟨1, 2, "A", false, ""⟩ (by decide) (by decide)⟩

end Fyyur
